import Mathlib

/-!
Verification of the monitoring-data ingestion and sustained-alert notification
engine of the repository (files `mail/simple_alert.py` and `model/models.py`).

Metric values and thresholds are embedded as rationals (`ℚ`); Python float
literals such as `0.8` are embedded as the exact rational `4/5` (for the sample
counts the code handles, IEEE double arithmetic agrees with the exact rational
comparison). Timestamps are integers in seconds; `timedelta(minutes=m)` is
`m * 60` seconds and `timedelta(days=d)` is `d * 86400` seconds. The database
session is embedded as an explicit list of rows passed in and returned.
-/

/-- The metric kinds handled by the alert module: the keys of
`DEFAULT_THRESHOLDS` in `config/production.py` (`cpu`, `memory`, `disk`). -/
inductive MetricType where
  | cpu
  | memory
  | disk
deriving DecidableEq, Repr

/-- Alert severity levels returned by `determine_alert_level`
(`mail/simple_alert.py`); `None` is represented by `Option.none` outside. -/
inductive AlertLevel where
  | warning
  | critical
  | emergency
deriving DecidableEq, Repr

/-- One threshold triple, e.g. `DEFAULT_THRESHOLDS['cpu']`
(`config/production.py`, lines 34-49). -/
structure Thresholds where
  warning : ℚ
  critical : ℚ
  emergency : ℚ
deriving DecidableEq, Repr

/-- Dictionary access `thresholds[alert_level]` in
`check_sustained_alert_by_ip` (`mail/simple_alert.py`, line 129). -/
def Thresholds.get (t : Thresholds) : AlertLevel → ℚ
  | AlertLevel.warning => t.warning
  | AlertLevel.critical => t.critical
  | AlertLevel.emergency => t.emergency

/-- `DEFAULT_THRESHOLDS` from `config/production.py` (lines 34-49). -/
def DEFAULT_THRESHOLDS : MetricType → Thresholds
  | MetricType.cpu => { warning := 70, critical := 85, emergency := 95 }
  | MetricType.memory => { warning := 75, critical := 85, emergency := 95 }
  | MetricType.disk => { warning := 80, critical := 90, emergency := 95 }

/-- A user row (`model/models.py`, class `User`); only the email is read by
the alert path. -/
structure User where
  email : String
deriving DecidableEq, Repr

/-- A server row (`model/models.py`, class `Server`): primary key `id`, the
unique `ip_address`, display name, and the users associated through the
`server_users` many-to-many table (the `users` backref). -/
structure Server where
  id : Nat
  ip_address : String
  server_name : String
  users : List User
deriving DecidableEq, Repr

/-- `Server.get_alert_users` (`model/models.py`, lines 333-341):
`return list(self.users)`. -/
def Server.get_alert_users (s : Server) : List User :=
  s.users

/-- `Server.get_by_ip` (`model/models.py`, lines 280-291):
`cls.query.filter_by(ip_address=ip_address).first()` — the first row whose
`ip_address` equals the argument, or `None`. -/
def Server.get_by_ip (servers : List Server) (ip_address : String) :
    Option Server :=
  servers.find? (fun s => s.ip_address = ip_address)

/-- A monitoring-data row (`model/models.py`, class `MonitorData`). -/
structure MonitorData where
  server_id : Nat
  ip_address : String
  cpu_value : ℚ
  memory_value : ℚ
  disk_value : ℚ
  recorded_at : Int
deriving DecidableEq, Repr

/-- `determine_alert_level` (`mail/simple_alert.py`, lines 146-154): inclusive
comparisons against `emergency`, then `critical`, then `warning`; `None` when
below all three. -/
def determine_alert_level (value : ℚ) (thresholds : Thresholds) :
    Option AlertLevel :=
  if thresholds.emergency ≤ value then some AlertLevel.emergency
  else if thresholds.critical ≤ value then some AlertLevel.critical
  else if thresholds.warning ≤ value then some AlertLevel.warning
  else none

/-- `MonitorData.get_by_ip` (`model/models.py`, lines 492-511): resolve the
server by IP (empty result when it does not exist), then all rows with that
`server_id` and `recorded_at >= start_time`, ordered by `recorded_at`
descending. -/
def MonitorData.get_by_ip (servers : List Server) (store : List MonitorData)
    (ip_address : String) (start_time : Int) : List MonitorData :=
  match Server.get_by_ip servers ip_address with
  | none => []
  | some server =>
      (store.filter (fun d =>
          d.server_id = server.id ∧ start_time ≤ d.recorded_at)).insertionSort
        (fun a b => b.recorded_at ≤ a.recorded_at)

/-- The per-sample test of the sustained loop (`mail/simple_alert.py`,
lines 132-138): `data.cpu_value >= threshold_value` for the branch matching
`metric_type`, and similarly for `memory` and `disk`. -/
def sustained_hit (metric_type : MetricType) (threshold_value : ℚ)
    (data : MonitorData) : Bool :=
  match metric_type with
  | MetricType.cpu => threshold_value ≤ data.cpu_value
  | MetricType.memory => threshold_value ≤ data.memory_value
  | MetricType.disk => threshold_value ≤ data.disk_value

/-- `check_sustained_alert_by_ip` (`mail/simple_alert.py`, lines 97-141).
The Python signature is `(ip_address, metric_type, value, minutes=1)`; the
default of the `minutes` parameter in the source is `1` (the docstring
claims 5). `start_time = datetime.utcnow() - timedelta(minutes=minutes)`;
fewer than 3 rows in the window give `False`; a current value below all
thresholds gives `False`; otherwise the rows meeting the current level's
boundary are counted and the result is
`sustained_count >= len(recent_data) * 0.8`. -/
def check_sustained_alert_by_ip (servers : List Server)
    (store : List MonitorData) (now : Int) (ip_address : String)
    (metric_type : MetricType) (value : ℚ) (minutes : Int := 1) : Bool :=
  let start_time := now - minutes * 60
  let recent_data := MonitorData.get_by_ip servers store ip_address start_time
  if recent_data.length < 3 then false
  else
    let thresholds := DEFAULT_THRESHOLDS metric_type
    match determine_alert_level value thresholds with
    | none => false
    | some alert_level =>
        let threshold_value := thresholds.get alert_level
        let sustained_count :=
          (recent_data.filter (sustained_hit metric_type threshold_value)).length
        decide ((recent_data.length : ℚ) * (4 / 5) ≤ (sustained_count : ℚ))

/-- The delivery loop of `check_and_send_alert_by_ip` (`mail/simple_alert.py`,
lines 68-83): one `send_alert_email` call per associated user, in list order,
accumulating `success_count`; a failed delivery only skips the increment and
the loop continues. `send_ok e` is the success/failure outcome of the SMTP
collaborator (`send_alert_email`, lines 156-186, which catches its own
exceptions and returns a boolean) for recipient address `e`. The first
component is `success_count`, the second the addresses attempted in order. -/
def send_alerts_loop (send_ok : String → Bool) (alert_users : List User) :
    Nat × List String :=
  alert_users.foldl
    (fun acc user =>
      ((if send_ok user.email then acc.1 + 1 else acc.1),
        acc.2 ++ [user.email]))
    (0, [])

/-- `check_and_send_alert_by_ip` (`mail/simple_alert.py`, lines 33-93):
resolve the server by IP (`False` when missing), get the associated users
(`False` when the list is empty), evaluate the level; on `None` return `True`;
otherwise require the sustained check with `minutes=5` (line 64), returning
`True` when not sustained, and finally run the delivery loop and return
`success_count > 0`. The `try/except` wrapper is not a reachable branch in
this embedding: threshold lookup is total over `MetricType` and
`send_alert_email` catches its own exceptions. -/
def check_and_send_alert_by_ip (servers : List Server)
    (store : List MonitorData) (now : Int) (send_ok : String → Bool)
    (ip_address : String) (metric_type : MetricType) (value : ℚ) : Bool :=
  match Server.get_by_ip servers ip_address with
  | none => false
  | some server =>
      let alert_users := server.get_alert_users
      if alert_users.isEmpty then false
      else
        let thresholds := DEFAULT_THRESHOLDS metric_type
        match determine_alert_level value thresholds with
        | none => true
        | some _ =>
            if check_sustained_alert_by_ip servers store now ip_address
                metric_type value 5 then
              decide (0 < (send_alerts_loop send_ok alert_users).1)
            else true

/-- `MonitorData.create` (`model/models.py`, lines 432-452): build a row and
append it to the session. `recorded_at` carries the insertion time. -/
def MonitorData.create (store : List MonitorData) (now : Int)
    (server_id : Nat) (ip_address : String) (cpu_value memory_value disk_value : ℚ) :
    MonitorData × List MonitorData :=
  let data : MonitorData :=
    { server_id := server_id, ip_address := ip_address,
      cpu_value := cpu_value, memory_value := memory_value,
      disk_value := disk_value, recorded_at := now }
  (data, store ++ [data])

/-- `MonitorData.create_by_ip` (`model/models.py`, lines 467-490): resolve the
server by IP; when no server matches, raise
`ValueError(f"服务器 {ip_address} 不存在")` before anything is written;
otherwise create the row. The second component is the resulting store. -/
def MonitorData.create_by_ip (servers : List Server) (store : List MonitorData)
    (now : Int) (ip_address : String) (cpu_value memory_value disk_value : ℚ) :
    Except String MonitorData × List MonitorData :=
  match Server.get_by_ip servers ip_address with
  | none => (Except.error ("服务器 " ++ ip_address ++ " 不存在"), store)
  | some server =>
      let r := MonitorData.create store now server.id ip_address
        cpu_value memory_value disk_value
      (Except.ok r.1, r.2)

/-- `MonitorData.delete_old_data` (`model/models.py`, lines 513-525):
`cutoff_date = datetime.now() - timedelta(days=days)`, then delete every row
with `recorded_at < cutoff_date` and commit. The Python function has no
return statement, so its value is `None`; the second component embeds that
returned value (it is never a row count). -/
def MonitorData.delete_old_data (now : Int) (store : List MonitorData)
    (days : Int := 7) : List MonitorData × Option Nat :=
  let cutoff_date := now - days * 86400
  (store.filter (fun d => ¬ d.recorded_at < cutoff_date), none)

/-- Rank of a level in the severity order none < warning < critical <
emergency (used to state monotonicity of `determine_alert_level`). -/
def level_rank : Option AlertLevel → Nat
  | none => 0
  | some AlertLevel.warning => 1
  | some AlertLevel.critical => 2
  | some AlertLevel.emergency => 3

/-! ### Concrete fixtures (used by witnesses and counterexamples) -/

/-- A CPU sample row for the fixture server (id 1, IP `10.0.0.5`). -/
def sample_cpu (t : Int) (c : ℚ) : MonitorData :=
  { server_id := 1, ip_address := "10.0.0.5", cpu_value := c,
    memory_value := 0, disk_value := 0, recorded_at := t }

/-- Fixture server with three associated users. -/
def srv_web : Server :=
  { id := 1, ip_address := "10.0.0.5", server_name := "web-1",
    users := [{ email := "ops@example.com" }, { email := "dev@example.com" },
      { email := "dba@example.com" }] }

/-- Fixture server with an empty associated-user list. -/
def srv_no_users : Server :=
  { id := 2, ip_address := "10.0.0.7", server_name := "web-2", users := [] }

/-- Five samples in the 5-minute window before `now = 1000`, of which exactly
4 are `≥ 85` (the cpu critical boundary). -/
def store_4of5 : List MonitorData :=
  [sample_cpu 710 90, sample_cpu 720 91, sample_cpu 730 50,
    sample_cpu 740 88, sample_cpu 750 86]

/-- Five samples in the 5-minute window before `now = 1000`, of which exactly
3 are `≥ 85` (the cpu critical boundary). -/
def store_3of5 : List MonitorData :=
  [sample_cpu 710 90, sample_cpu 720 91, sample_cpu 730 50,
    sample_cpu 740 40, sample_cpu 750 86]

/-- Three samples between 1 and 5 minutes before `now = 1000`, all `≥ 95`
(the cpu emergency boundary); none lies within the last minute. -/
def store_older_than_1min : List MonitorData :=
  [sample_cpu 800 96, sample_cpu 810 97, sample_cpu 820 98]

/-- A delivery-outcome oracle under which exactly the recipient
`dev@example.com` fails. -/
def send_ok_one_fails : String → Bool :=
  fun e => e ≠ "dev@example.com"

/-! ### Helper lemmas -/

/-- The 80% sustained-fraction comparison `count >= len * 0.8`, over the exact
rationals, is the integer comparison `4 * len ≤ 5 * count`. -/
theorem mul_four_fifths_le_iff (len count : Nat) :
    ((len : ℚ) * (4 / 5) ≤ (count : ℚ)) ↔ 4 * len ≤ 5 * count := by
  constructor
  · intro h
    have h5 : (4 * len : ℚ) ≤ 5 * count := by linarith
    exact_mod_cast h5
  · intro h
    have h5 : (4 * len : ℚ) ≤ 5 * count := by exact_mod_cast h
    linarith

/-- Computation rule for `check_sustained_alert_by_ip` with the
sustained-fraction test rewritten as an integer comparison (the rational form
in the definition does not reduce by kernel computation). -/
theorem check_sustained_alert_by_ip_eq_nat (servers : List Server)
    (store : List MonitorData) (now : Int) (ip_address : String)
    (metric_type : MetricType) (value : ℚ) (minutes : Int) :
    check_sustained_alert_by_ip servers store now ip_address metric_type value
        minutes =
      (let recent_data :=
        MonitorData.get_by_ip servers store ip_address (now - minutes * 60)
      if recent_data.length < 3 then false
      else
        match determine_alert_level value (DEFAULT_THRESHOLDS metric_type) with
        | none => false
        | some alert_level =>
            decide (4 * recent_data.length ≤
              5 * (recent_data.filter (sustained_hit metric_type
                ((DEFAULT_THRESHOLDS metric_type).get alert_level))).length)) := by
  by_cases h3 :
      (MonitorData.get_by_ip servers store ip_address
        (now - minutes * 60)).length < 3
  · simp [check_sustained_alert_by_ip, h3]
  · cases hl : determine_alert_level value (DEFAULT_THRESHOLDS metric_type) with
    | none => simp [check_sustained_alert_by_ip, h3, hl]
    | some alert_level =>
        simp only [check_sustained_alert_by_ip, h3, if_false, hl]
        rw [decide_eq_decide]
        exact mul_four_fifths_le_iff _ _

/-! ### Claim theorems -/

/-- C1: when the window holds at least 3 samples and the current value maps to
a non-none level, `check_sustained_alert_by_ip` returns `true` exactly when
the number of fetched samples whose value for the metric kind meets the
current level's boundary is at least `0.8` times the number of fetched
samples; in particular with 5 fetched samples it returns `true` when exactly
4 meet the boundary and `false` when exactly 3 do. -/
theorem check_sustained_fraction_policy (servers : List Server)
    (store : List MonitorData) (now : Int) (ip_address : String)
    (metric_type : MetricType) (value : ℚ) (minutes : Int) (level : AlertLevel)
    (h3 : 3 ≤ (MonitorData.get_by_ip servers store ip_address
      (now - minutes * 60)).length)
    (hl : determine_alert_level value (DEFAULT_THRESHOLDS metric_type) =
      some level) :
    (check_sustained_alert_by_ip servers store now ip_address metric_type
        value minutes = true ↔
      ((MonitorData.get_by_ip servers store ip_address
          (now - minutes * 60)).length : ℚ) * (4 / 5) ≤
        (((MonitorData.get_by_ip servers store ip_address
            (now - minutes * 60)).filter (sustained_hit metric_type
          ((DEFAULT_THRESHOLDS metric_type).get level))).length : ℚ)) ∧
    ((MonitorData.get_by_ip servers store ip_address
        (now - minutes * 60)).length = 5 →
      (((MonitorData.get_by_ip servers store ip_address
            (now - minutes * 60)).filter (sustained_hit metric_type
          ((DEFAULT_THRESHOLDS metric_type).get level))).length = 4 →
        check_sustained_alert_by_ip servers store now ip_address metric_type
          value minutes = true) ∧
      (((MonitorData.get_by_ip servers store ip_address
            (now - minutes * 60)).filter (sustained_hit metric_type
          ((DEFAULT_THRESHOLDS metric_type).get level))).length = 3 →
        check_sustained_alert_by_ip servers store now ip_address metric_type
          value minutes = false)) := by
  have key := check_sustained_alert_by_ip_eq_nat servers store now ip_address
    metric_type value minutes
  rw [key]
  simp only [not_lt.mpr h3, if_false, hl]
  refine ⟨?_, ?_⟩
  · rw [decide_eq_true_iff]
    exact (mul_four_fifths_le_iff _ _).symm
  · intro hlen
    constructor
    · intro hcount
      rw [hlen, hcount]
      decide
    · intro hcount
      rw [hlen, hcount]
      decide

/-- Witness for C1 at the fixture data: 4 of 5 boundary hits give `true`,
3 of 5 give `false` (current value 87, cpu critical boundary 85). -/
theorem check_sustained_fraction_policy_witness :
    check_sustained_alert_by_ip [srv_web] store_4of5 1000 "10.0.0.5"
        MetricType.cpu 87 5 = true ∧
      check_sustained_alert_by_ip [srv_web] store_3of5 1000 "10.0.0.5"
        MetricType.cpu 87 5 = false := by
  constructor
  · exact ((check_sustained_fraction_policy [srv_web] store_4of5 1000
      "10.0.0.5" MetricType.cpu 87 5 AlertLevel.critical (by decide)
      (by decide)).2 (by decide)).1 (by decide)
  · exact ((check_sustained_fraction_policy [srv_web] store_3of5 1000
      "10.0.0.5" MetricType.cpu 87 5 AlertLevel.critical (by decide)
      (by decide)).2 (by decide)).2 (by decide)

/-- C2: `determine_alert_level` compares the value against `emergency`, then
`critical`, then `warning`, with inclusive comparisons, returning the first
matching level and `none` below all three; hence the `emergency` boundary
value maps to `emergency`, the `critical` boundary value maps to `critical`,
and `critical - eps` maps to `warning` for every `eps` with
`warning ≤ critical - eps < critical`. -/
theorem determine_alert_level_first_match (t : Thresholds)
    (hwc : t.warning < t.critical) (hce : t.critical < t.emergency) :
    (∀ v : ℚ,
      (t.emergency ≤ v →
        determine_alert_level v t = some AlertLevel.emergency) ∧
      (t.critical ≤ v → v < t.emergency →
        determine_alert_level v t = some AlertLevel.critical) ∧
      (t.warning ≤ v → v < t.critical →
        determine_alert_level v t = some AlertLevel.warning) ∧
      (v < t.warning → determine_alert_level v t = none)) ∧
    determine_alert_level t.emergency t = some AlertLevel.emergency ∧
    determine_alert_level t.critical t = some AlertLevel.critical ∧
    (∀ eps : ℚ, t.warning ≤ t.critical - eps → t.critical - eps < t.critical →
      determine_alert_level (t.critical - eps) t = some AlertLevel.warning) := by
  have main : ∀ v : ℚ,
      (t.emergency ≤ v →
        determine_alert_level v t = some AlertLevel.emergency) ∧
      (t.critical ≤ v → v < t.emergency →
        determine_alert_level v t = some AlertLevel.critical) ∧
      (t.warning ≤ v → v < t.critical →
        determine_alert_level v t = some AlertLevel.warning) ∧
      (v < t.warning → determine_alert_level v t = none) := by
    intro v
    refine ⟨fun h => ?_, fun h1 h2 => ?_, fun h1 h2 => ?_, fun h => ?_⟩
    · rw [determine_alert_level, if_pos h]
    · rw [determine_alert_level, if_neg (not_le.mpr h2), if_pos h1]
    · rw [determine_alert_level, if_neg (by linarith : ¬ t.emergency ≤ v),
        if_neg (not_le.mpr h2), if_pos h1]
    · rw [determine_alert_level, if_neg (by linarith : ¬ t.emergency ≤ v),
        if_neg (by linarith : ¬ t.critical ≤ v), if_neg (not_le.mpr h)]
  refine ⟨main, (main t.emergency).1 le_rfl,
    (main t.critical).2.1 le_rfl hce, fun eps he1 he2 => ?_⟩
  exact (main (t.critical - eps)).2.2.1 he1 he2

/-- Witness for C2 at the cpu thresholds (70, 85, 95); the value 80 is
`critical - eps` for `eps = 5`. -/
theorem determine_alert_level_first_match_witness :
    determine_alert_level 95 (DEFAULT_THRESHOLDS MetricType.cpu) =
        some AlertLevel.emergency ∧
      determine_alert_level 85 (DEFAULT_THRESHOLDS MetricType.cpu) =
        some AlertLevel.critical ∧
      determine_alert_level 80 (DEFAULT_THRESHOLDS MetricType.cpu) =
        some AlertLevel.warning := by
  have h := determine_alert_level_first_match
    (DEFAULT_THRESHOLDS MetricType.cpu) (by decide) (by decide)
  exact ⟨h.2.1, h.2.2.1, (h.1 80).2.2.1 (by decide) (by decide)⟩

/-- C3: `check_sustained_alert_by_ip` returns `false` whenever fewer than 3
samples lie in the queried window, for every metric kind, current value and
window length. -/
theorem check_sustained_false_of_insufficient_samples (servers : List Server)
    (store : List MonitorData) (now : Int) (ip_address : String)
    (metric_type : MetricType) (value : ℚ) (minutes : Int)
    (h : (MonitorData.get_by_ip servers store ip_address
      (now - minutes * 60)).length < 3) :
    check_sustained_alert_by_ip servers store now ip_address metric_type value
      minutes = false := by
  rw [check_sustained_alert_by_ip_eq_nat]
  simp [h]

/-- Witness for C3: two very high samples in the window still give `false`. -/
theorem check_sustained_false_of_insufficient_samples_witness :
    check_sustained_alert_by_ip [srv_web]
      [sample_cpu 900 99, sample_cpu 950 99] 1000 "10.0.0.5"
      MetricType.cpu 99 5 = false :=
  check_sustained_false_of_insufficient_samples [srv_web]
    [sample_cpu 900 99, sample_cpu 950 99] 1000 "10.0.0.5"
    MetricType.cpu 99 5 (by decide)

/-- C10: with `warning ≤ critical ≤ emergency`, `determine_alert_level` is
total over the four levels and monotone in the value with respect to the
severity order none < warning < critical < emergency. -/
theorem determine_alert_level_total_and_monotone (t : Thresholds)
    (hwc : t.warning ≤ t.critical) (hce : t.critical ≤ t.emergency) :
    (∀ v : ℚ, determine_alert_level v t ∈
      [none, some AlertLevel.warning, some AlertLevel.critical,
        some AlertLevel.emergency]) ∧
    (∀ v1 v2 : ℚ, v1 ≤ v2 →
      level_rank (determine_alert_level v1 t) ≤
        level_rank (determine_alert_level v2 t)) := by
  constructor
  · intro v
    rw [determine_alert_level]
    split_ifs <;> simp
  · intro v1 v2 h12
    rw [determine_alert_level, determine_alert_level]
    split_ifs <;> simp [level_rank] <;> linarith

/-- Witness for C10 at the cpu thresholds with values 40 and 90. -/
theorem determine_alert_level_total_and_monotone_witness :
    determine_alert_level 90 (DEFAULT_THRESHOLDS MetricType.cpu) ∈
        [none, some AlertLevel.warning, some AlertLevel.critical,
          some AlertLevel.emergency] ∧
      level_rank (determine_alert_level 40 (DEFAULT_THRESHOLDS MetricType.cpu)) ≤
        level_rank (determine_alert_level 90 (DEFAULT_THRESHOLDS MetricType.cpu)) := by
  have h := determine_alert_level_total_and_monotone
    (DEFAULT_THRESHOLDS MetricType.cpu) (by decide) (by decide)
  exact ⟨h.1 90, h.2 40 90 (by norm_num)⟩

/-- Closed form of the delivery loop: the attempted-address log is every
associated user's email exactly once in list order (a failure never aborts
the remaining deliveries), and `success_count` is the number of users whose
delivery succeeded. -/
theorem send_alerts_loop_spec (send_ok : String → Bool)
    (alert_users : List User) :
    send_alerts_loop send_ok alert_users =
      ((alert_users.filter (fun u => send_ok u.email)).length,
        alert_users.map User.email) := by
  suffices h : ∀ (users : List User) (k : Nat) (log : List String),
      List.foldl
        (fun acc user =>
          ((if send_ok user.email then acc.1 + 1 else acc.1),
            acc.2 ++ [user.email])) (k, log) users =
      (k + (users.filter (fun u => send_ok u.email)).length,
        log ++ users.map User.email) by
    simpa [send_alerts_loop] using h alert_users 0 []
  intro users
  induction users with
  | nil => intro k log; simp
  | cons u rest ih =>
      intro k log
      by_cases hu : send_ok u.email <;>
        simp [hu, ih, List.filter_cons] <;> omega

/-- C4 (code bug): the `minutes` parameter of `check_sustained_alert_by_ip`
defaults to 1 in the source, although its docstring and the spec say the
default window is 5 minutes: calling the check without a window argument is
the 1-minute check, and on a store whose samples are older than 1 minute but
inside 5 minutes it answers `false` where the 5-minute call answers
`true`. -/
theorem check_sustained_default_window_is_one_minute :
    (∀ (servers : List Server) (store : List MonitorData) (now : Int)
        (ip_address : String) (metric_type : MetricType) (value : ℚ),
      check_sustained_alert_by_ip servers store now ip_address metric_type
          value =
        check_sustained_alert_by_ip servers store now ip_address metric_type
          value 1) ∧
    check_sustained_alert_by_ip [srv_web] store_older_than_1min 1000
      "10.0.0.5" MetricType.cpu 96 = false ∧
    check_sustained_alert_by_ip [srv_web] store_older_than_1min 1000
      "10.0.0.5" MetricType.cpu 96 5 = true := by
  refine ⟨fun _ _ _ _ _ _ => rfl, ?_, ?_⟩
  · rw [check_sustained_alert_by_ip_eq_nat]
    decide
  · rw [check_sustained_alert_by_ip_eq_nat]
    decide

/-- C5 counterexample: for a server whose associated-user list is empty,
`check_and_send_alert_by_ip` returns `False` — the claimed no-op success
(returning `True`) is refuted at this input. -/
theorem empty_recipients_reports_failure_cx :
    check_and_send_alert_by_ip [srv_no_users] [] 1000 (fun _ => true)
      "10.0.0.7" MetricType.cpu 50 = false := by decide

/-- C5 amended: for every entity whose associated recipient set is empty, no
delivery is attempted (the result does not depend on the delivery oracle and
the dispatch loop is never reached) and the entity can still receive samples,
but the dispatch call reports failure (`False`), not success. -/
theorem empty_recipients_no_delivery_reports_false (servers : List Server)
    (store : List MonitorData) (now : Int) (ip_address : String)
    (metric_type : MetricType) (value : ℚ) (server : Server)
    (hs : Server.get_by_ip servers ip_address = some server)
    (hu : server.get_alert_users = []) :
    (∀ send_ok : String → Bool,
      check_and_send_alert_by_ip servers store now send_ok ip_address
        metric_type value = false) ∧
    (∀ c m d : ℚ,
      MonitorData.create_by_ip servers store now ip_address c m d =
        (Except.ok
          { server_id := server.id, ip_address := ip_address, cpu_value := c,
            memory_value := m, disk_value := d, recorded_at := now },
          store ++
            [{ server_id := server.id, ip_address := ip_address,
               cpu_value := c, memory_value := m, disk_value := d,
               recorded_at := now }])) := by
  constructor
  · intro send_ok
    simp [check_and_send_alert_by_ip, hs, hu]
  · intro c m d
    simp [MonitorData.create_by_ip, MonitorData.create, hs]

/-- Witness for C5 (amended) at the fixture server with no users. -/
theorem empty_recipients_no_delivery_reports_false_witness :
    check_and_send_alert_by_ip [srv_no_users] [] 1000 (fun _ => true)
        "10.0.0.7" MetricType.cpu 96 = false ∧
      MonitorData.create_by_ip [srv_no_users] [] 1000 "10.0.0.7" 96 1 2 =
        (Except.ok
          { server_id := 2, ip_address := "10.0.0.7", cpu_value := 96,
            memory_value := 1, disk_value := 2, recorded_at := 1000 },
          [{ server_id := 2, ip_address := "10.0.0.7", cpu_value := 96,
             memory_value := 1, disk_value := 2, recorded_at := 1000 }]) := by
  have h := empty_recipients_no_delivery_reports_false [srv_no_users] [] 1000
    "10.0.0.7" MetricType.cpu 96 srv_no_users (by decide) (by decide)
  exact ⟨h.1 (fun _ => true), h.2 96 1 2⟩

/-- C6 counterexample: with an empty recipient list the code reports failure,
refuting the claimed success rule "reports success iff succeeded > 0 or
attempted = 0" (here succeeded = 0 and attempted = 0, yet the call returns
`False`). -/
theorem dispatch_success_rule_cx :
    ¬ ((check_and_send_alert_by_ip [srv_no_users] [] 1000 (fun _ => true)
          "10.0.0.7" MetricType.cpu 96 = true) ↔
        (0 < (send_alerts_loop (fun _ => true)
            srv_no_users.get_alert_users).1 ∨
          (send_alerts_loop (fun _ => true)
            srv_no_users.get_alert_users).2.length = 0)) := by decide

/-- C6 amended: on the alerting path (server found, non-empty recipient list,
non-none level, sustained check true) each recipient is attempted exactly
once in list order, a delivery failure does not abort the remaining
deliveries (`succeeded` counts every successful recipient), and the call
reports success iff `succeeded > 0`; an empty recipient list reports
failure. -/
theorem dispatch_isolated_failures (servers : List Server)
    (store : List MonitorData) (now : Int) (send_ok : String → Bool)
    (ip_address : String) (metric_type : MetricType) (value : ℚ)
    (server : Server) (level : AlertLevel)
    (hs : Server.get_by_ip servers ip_address = some server)
    (hu : server.get_alert_users ≠ [])
    (hl : determine_alert_level value (DEFAULT_THRESHOLDS metric_type) =
      some level)
    (hsus : check_sustained_alert_by_ip servers store now ip_address
      metric_type value 5 = true) :
    (send_alerts_loop send_ok server.get_alert_users).2 =
        server.get_alert_users.map User.email ∧
      (send_alerts_loop send_ok server.get_alert_users).1 =
        (server.get_alert_users.filter (fun u => send_ok u.email)).length ∧
      (check_and_send_alert_by_ip servers store now send_ok ip_address
          metric_type value = true ↔
        0 < (send_alerts_loop send_ok server.get_alert_users).1) := by
  have hspec := send_alerts_loop_spec send_ok server.get_alert_users
  refine ⟨by rw [hspec], by rw [hspec], ?_⟩
  have hne : server.get_alert_users.isEmpty = false := by
    simpa [List.isEmpty_iff] using hu
  simp [check_and_send_alert_by_ip, hs, hne, hl, hsus]

/-- Witness for C6 (amended): 3 recipients of which exactly one delivery
fails; the other 2 are attempted, succeeded = 2 of attempted = 3, and the
call reports success. -/
theorem dispatch_isolated_failures_witness :
    check_and_send_alert_by_ip [srv_web] store_4of5 1000 send_ok_one_fails
        "10.0.0.5" MetricType.cpu 87 = true ∧
      (send_alerts_loop send_ok_one_fails srv_web.get_alert_users).1 = 2 ∧
      (send_alerts_loop send_ok_one_fails
        srv_web.get_alert_users).2.length = 3 := by
  have hsus : check_sustained_alert_by_ip [srv_web] store_4of5 1000 "10.0.0.5"
      MetricType.cpu 87 5 = true :=
    (check_sustained_alert_by_ip_eq_nat [srv_web] store_4of5 1000 "10.0.0.5"
      MetricType.cpu 87 5).trans (by decide)
  have h := dispatch_isolated_failures [srv_web] store_4of5 1000
    send_ok_one_fails "10.0.0.5" MetricType.cpu 87 srv_web AlertLevel.critical
    (by decide) (by decide) (by decide) hsus
  exact ⟨h.2.2.mpr (by decide), by decide, by decide⟩

/-- C7: when no server record matches the submitted address,
`MonitorData.create_by_ip` fails with the `ValueError` (`EntityNotFound`)
message and the sample store is left unchanged — zero rows are written. -/
theorem create_by_ip_unknown_address_writes_nothing (servers : List Server)
    (store : List MonitorData) (now : Int) (ip_address : String)
    (cpu_value memory_value disk_value : ℚ)
    (h : Server.get_by_ip servers ip_address = none) :
    MonitorData.create_by_ip servers store now ip_address cpu_value
        memory_value disk_value =
      (Except.error ("服务器 " ++ ip_address ++ " 不存在"), store) := by
  simp [MonitorData.create_by_ip, h]

/-- Witness for C7 at the unresolved address `192.168.9.9`. -/
theorem create_by_ip_unknown_address_writes_nothing_witness :
    MonitorData.create_by_ip [srv_web] store_4of5 1000 "192.168.9.9" 1 2 3 =
      (Except.error ("服务器 " ++ "192.168.9.9" ++ " 不存在"), store_4of5) :=
  create_by_ip_unknown_address_writes_nothing [srv_web] store_4of5 1000
    "192.168.9.9" 1 2 3 (by decide)

/-- C8 counterexample: a purge that removes exactly one row does not return
the count of removed rows — the source function has no return statement, so
its returned value is `None`, not 1. -/
theorem delete_old_data_returns_no_count_cx :
    (MonitorData.delete_old_data 2592100
        [sample_cpu 50 1, sample_cpu 2592090 2] 30).1.length = 1 ∧
      (MonitorData.delete_old_data 2592100
        [sample_cpu 50 1, sample_cpu 2592090 2] 30).2 ≠ some 1 := by decide

/-- C8 amended: `MonitorData.delete_old_data` keeps exactly the rows whose
`recorded_at` is not older than `now - days`, the number of removed rows is
the number of rows older than the cutoff, and the function returns no count
(its returned value is `None`). -/
theorem delete_old_data_purges_and_returns_none (now days : Int)
    (store : List MonitorData) :
    (∀ d : MonitorData,
      d ∈ (MonitorData.delete_old_data now store days).1 ↔
        d ∈ store ∧ ¬ d.recorded_at < now - days * 86400) ∧
      (MonitorData.delete_old_data now store days).1.length +
          (store.filter
            (fun d => decide (d.recorded_at < now - days * 86400))).length =
        store.length ∧
      (MonitorData.delete_old_data now store days).2 = none := by
  refine ⟨?_, ?_, rfl⟩
  · intro d
    simp [MonitorData.delete_old_data, List.mem_filter]
  · have hq : (fun d : MonitorData =>
        ! decide (¬ d.recorded_at < now - days * 86400)) =
        (fun d : MonitorData =>
          decide (d.recorded_at < now - days * 86400)) := by
      funext d
      by_cases hd : d.recorded_at < now - days * 86400 <;> simp [hd]
    have h := List.length_eq_length_filter_add (l := store)
      (fun d : MonitorData => decide (¬ d.recorded_at < now - days * 86400))
    simp only [MonitorData.delete_old_data]
    rw [← hq]
    exact h.symm

/-- Witness for C8 (amended) at a two-row store with a 30-day retention. -/
theorem delete_old_data_purges_and_returns_none_witness :
    (MonitorData.delete_old_data 2592100
        [sample_cpu 50 1, sample_cpu 2592090 2] 30).2 = none ∧
      (sample_cpu 50 1 ∈ (MonitorData.delete_old_data 2592100
          [sample_cpu 50 1, sample_cpu 2592090 2] 30).1 ↔
        sample_cpu 50 1 ∈ [sample_cpu 50 1, sample_cpu 2592090 2] ∧
          ¬ (sample_cpu 50 1).recorded_at < 2592100 - 30 * 86400) := by
  have h := delete_old_data_purges_and_returns_none 2592100 30
    [sample_cpu 50 1, sample_cpu 2592090 2]
  exact ⟨h.2.2, h.1 (sample_cpu 50 1)⟩

/-- C9: the retention purge is idempotent at a fixed clock: re-running
`delete_old_data` on its own output (no rows arriving in between) is a no-op
and the second run removes 0 rows. -/
theorem delete_old_data_idempotent (now days : Int)
    (store : List MonitorData) :
    MonitorData.delete_old_data now
        (MonitorData.delete_old_data now store days).1 days =
      ((MonitorData.delete_old_data now store days).1, none) ∧
      (MonitorData.delete_old_data now store days).1.length -
          (MonitorData.delete_old_data now
            (MonitorData.delete_old_data now store days).1 days).1.length =
        0 := by
  have hff : ∀ (l : List MonitorData) (p : MonitorData → Bool),
      (l.filter p).filter p = l.filter p := by
    intro l p
    rw [List.filter_filter]
    simp
  constructor
  · simp [MonitorData.delete_old_data, hff]
  · simp [MonitorData.delete_old_data, hff]
